import Mathlib

/-!
Verification of the measurement-and-classification pipeline of the
rosca-app repository (src/main.py) against its specification.

Numeric values are modelled as exact rationals (ℚ): every constant in the
source (tolerances, table diameters, the 86.0 mm card width) is a decimal
literal that ℚ represents exactly, and the claims under study are about the
arithmetic relations of the pipeline, not floating-point rounding.

The image-processing calls (cv2.HoughCircles, cv2.Canny, cv2.findContours,
cv2.boundingRect) are external library detectors; the pipeline logic is
modelled from the point where their outputs enter src/main.py: the optional
list of rounded circle radii (OpenCV returns None rather than an empty
array when nothing is detected) and the list of contour bounding boxes.
-/

namespace RoscaApp

/-- The static thread catalog `TABELA_ROSCAS` of src/main.py lines 19-32:
standard → bore kind ("externa"/"interna") → ordered (nominal size, reference
diameter in mm) pairs, in Python dict insertion order. -/
def TABELA_ROSCAS : List (String × List (String × List (String × ℚ))) :=
  [("BSP",
    [("externa", [("1/8", 9.7), ("1/4", 13.2), ("3/8", 16.7), ("1/2", 20.9),
                  ("3/4", 26.4), ("1", 33.2)]),
     ("interna", [("1/8", 8.5), ("1/4", 11.8), ("3/8", 15.3), ("1/2", 19.0),
                  ("3/4", 24.5), ("1", 30.3)])]),
   ("NPT",
    [("externa", [("1/8", 10.2), ("1/4", 13.7), ("3/8", 17.1), ("1/2", 21.3),
                  ("3/4", 26.7), ("1", 33.5)]),
     ("interna", [("1/8", 8.7), ("1/4", 11.9), ("3/8", 15.5), ("1/2", 19.3),
                  ("3/4", 24.9), ("1", 30.8)])]),
   ("UNF",
    [("externa", [("1/4", 6.35), ("3/8", 9.53), ("1/2", 12.7), ("3/4", 19.05),
                  ("1", 25.4)]),
     ("interna", [("1/4", 5.8), ("3/8", 8.8), ("1/2", 12.0), ("3/4", 18.3),
                  ("1", 24.5)])])]

/-- The body of the `for medida in medidas_ordenadas[1:]` loop of
`evitar_cruzamento` (src/main.py lines 40-44): `ultima` is the last element
already appended to `medidas_ajustadas`; an element closer than
`distancia_minima` to it is pushed up to `ultima + distancia_minima`. -/
def ajustarLoop (distancia_minima : ℚ) (ultima : ℚ) : List ℚ → List ℚ
  | [] => []
  | medida :: resto =>
      let m := if medida - ultima < distancia_minima
               then ultima + distancia_minima else medida
      m :: ajustarLoop distancia_minima m resto

/-- `evitar_cruzamento` (src/main.py lines 37-45).  Python sorts the input
and seeds the output with `medidas_ordenadas[0]`; on the empty list that
index raises IndexError, modelled here as `none`.  The Python default for
`distancia_minima` is 0.2; callers here pass it explicitly.  `sorted` is
modelled by insertion sort: over a linear order the ascending rearrangement
of a list of plain numbers is unique, so any sort yields Python's output. -/
def evitar_cruzamento (medidas : List ℚ) (distancia_minima : ℚ) :
    Option (List ℚ) :=
  match List.insertionSort (· ≤ ·) medidas with
  | [] => none
  | m0 :: resto => some (m0 :: ajustarLoop distancia_minima m0 resto)

/-- The catalog flattened for one bore kind, in the iteration order of the
nested loops of `fator_decisao` (src/main.py lines 53-54): standards in
declared order, sizes in declared order within each standard. -/
def tabelaTipo (tipo : String) : List (String × String × ℚ) :=
  TABELA_ROSCAS.flatMap (fun nd =>
    ((nd.2.lookup tipo).getD []).map (fun bd => (nd.1, bd.1, bd.2)))

/-- The qualifying candidates accumulated by `fator_decisao`
(src/main.py lines 52-56): the entries of the bore kind's sub-tables whose
reference diameter lies within 0.3 mm of the measured diameter, in catalog
declaration order. -/
def candidatos (diametro_medido : ℚ) (tipo : String) :
    List (String × String × ℚ) :=
  (tabelaTipo tipo).filter (fun c => |diametro_medido - c.2.2| ≤ 0.3)

/-- The 5-tuple returned by `fator_decisao`
(src/main.py lines 58 and 62): (norma, bitola, diametro_ref, confianca,
tipo), with `None` fields modelled as `Option`. -/
structure DecisionResult where
  norma : Option String
  bitola : Option String
  diametro_ref : Option ℚ
  confianca : ℚ
  tipo : String
deriving DecidableEq, Repr

/-- `fator_decisao` (src/main.py lines 50-62): qualify catalog entries
within 0.3 mm, return the all-None/0.0 tuple when none qualifies, otherwise
run `evitar_cruzamento` over the qualifying reference diameters (its result
is bound to `_` and discarded, as in the source) and return the first
qualifying candidate with fixed confidence 95.0. -/
def fator_decisao (diametro_medido : ℚ) (interna : Bool) : DecisionResult :=
  let tipo := if interna then "interna" else "externa"
  match candidatos diametro_medido tipo with
  | [] => ⟨none, none, none, 0.0, tipo⟩
  | c :: resto =>
      let medidas := ((c :: resto).map (fun c => c.2.2))
      let _ := evitar_cruzamento medidas 0.2
      ⟨some c.1, some c.2.1, some c.2.2, 95.0, tipo⟩

/-- Modelled from the spec for the refinement claim: the Match Resolver
with the collision-avoidance pass removed — identical to `fator_decisao`
except that `evitar_cruzamento` is never invoked. -/
def fator_decisao_sem_cruzamento (diametro_medido : ℚ) (interna : Bool) :
    DecisionResult :=
  let tipo := if interna then "interna" else "externa"
  match candidatos diametro_medido tipo with
  | [] => ⟨none, none, none, 0.0, tipo⟩
  | c :: _ => ⟨some c.1, some c.2.1, some c.2.2, 95.0, tipo⟩

/-- A contour bounding box as returned by `cv2.boundingRect`
(src/main.py line 91). -/
structure Rect where
  x : ℕ
  y : ℕ
  w : ℕ
  h : ℕ
deriving DecidableEq, Repr

/-- The plausibility filter of src/main.py line 92:
`80 < w < 1200 and 40 < h < 800`. -/
def plausivel (c : Rect) : Prop :=
  80 < c.w ∧ c.w < 1200 ∧ 40 < c.h ∧ c.h < 800

instance (c : Rect) : Decidable (plausivel c) := by
  unfold plausivel; infer_instance

/-- The card-width accumulation loop of src/main.py lines 89-93:
`largura_cartao_px` starts at 0 and takes the maximum width of the
plausible bounding boxes. -/
def larguraCartao (contours : List Rect) : ℕ :=
  contours.foldl
    (fun largura_cartao_px c =>
      if plausivel c then max largura_cartao_px c.w else largura_cartao_px)
    0

/-- Python's `max` over the rounded detected radii (src/main.py line 81);
radii are non-negative integers, so the fold from 0 agrees with `max` on
every non-empty list (OpenCV never yields an empty circle array). -/
def maxRadius (rs : List ℕ) : ℕ := rs.foldl max 0

/-- The scale factor of src/main.py line 103: `escala = 86.0 /
largura_cartao_px`, millimetres per pixel for the 86.0 mm card. -/
def escala (largura_cartao_px : ℚ) : ℚ := 86.0 / largura_cartao_px

/-- `medir_diametro` (src/main.py lines 67-104) from the detector outputs
onward: `diametro_px` is -1 unless circles were detected, in which case it
is twice the maximum radius; if no circles were detected or no plausible
card box was found the function returns -1, otherwise the pixel diameter
scaled by `escala`. -/
def medir_diametro (circles : Option (List ℕ)) (contours : List Rect) : ℚ :=
  let diametro_px : ℤ :=
    match circles with
    | none => -1
    | some rs => (maxRadius rs) * 2
  let largura_cartao_px := larguraCartao contours
  if circles = none ∨ largura_cartao_px = 0 then -1
  else (diametro_px : ℚ) * escala (largura_cartao_px : ℚ)

/-! ### Helper lemmas -/

/-- The adjustment loop preserves the number of elements. -/
theorem ajustarLoop_length (d u : ℚ) (xs : List ℚ) :
    (ajustarLoop d u xs).length = xs.length := by
  induction xs generalizing u with
  | nil => rfl
  | cons x xs ih => simp [ajustarLoop, ih]

/-- Each element the adjustment loop emits exceeds its predecessor by at
least `d`, starting from the seed `u`. -/
theorem ajustarLoop_chain (d u : ℚ) (xs : List ℚ) :
    List.Chain (fun a b => a + d ≤ b) u (ajustarLoop d u xs) := by
  induction xs generalizing u with
  | nil => exact List.Chain.nil
  | cons x xs ih =>
      by_cases hx : x - u < d
      · simp only [ajustarLoop, if_pos hx]
        exact List.Chain.cons (le_refl _) (ih _)
      · simp only [ajustarLoop, if_neg hx]
        exact List.Chain.cons (by linarith) (ih _)

/-- Sorting a non-empty list cannot give the empty list. -/
theorem insertionSort_ne_nil (l : List ℚ) (h : l ≠ []) :
    List.insertionSort (· ≤ ·) l ≠ [] := by
  intro hs
  apply h
  have hlen := List.length_insertionSort (· ≤ ·) l
  rw [hs] at hlen
  exact List.length_eq_zero.mp hlen.symm

/-- On any non-empty input, `evitar_cruzamento` produces a value (the
IndexError branch is only reachable from the empty list). -/
theorem evitar_cruzamento_isSome (l : List ℚ) (dm : ℚ) (h : l ≠ []) :
    (evitar_cruzamento l dm).isSome = true := by
  rcases hs : List.insertionSort (· ≤ ·) l with _ | ⟨a, t⟩
  · exact absurd hs (insertionSort_ne_nil l h)
  · unfold evitar_cruzamento
    rw [hs]
    rfl

/-- A list of contour boxes with no plausible member yields card width 0. -/
theorem larguraCartao_eq_zero (contours : List Rect)
    (h : ∀ c ∈ contours, ¬ plausivel c) : larguraCartao contours = 0 := by
  induction contours with
  | nil => rfl
  | cons c cs ih =>
      simp only [larguraCartao, List.foldl_cons]
      rw [if_neg (h c (List.mem_cons_self c cs))]
      exact ih (fun x hx => h x (List.mem_cons_of_mem c hx))

/-- The card-width fold keeps the invariant: the accumulator is either
still 0 or already above the 80-pixel lower plausibility bound. -/
theorem foldl_largura_inv (contours : List Rect) :
    ∀ acc : ℕ, acc = 0 ∨ 80 < acc →
      contours.foldl (fun l c => if plausivel c then max l c.w else l) acc = 0 ∨
      80 < contours.foldl (fun l c => if plausivel c then max l c.w else l) acc := by
  induction contours with
  | nil => intro acc h; exact h
  | cons c cs ih =>
      intro acc h
      simp only [List.foldl_cons]
      by_cases hp : plausivel c
      · rw [if_pos hp]
        exact ih _ (Or.inr (lt_of_lt_of_le hp.1 (le_max_right acc c.w)))
      · rw [if_neg hp]
        exact ih _ h

/-- Doubling every radius doubles the running maximum of the fold. -/
theorem foldl_max_double (rs : List ℕ) :
    ∀ a : ℕ, (rs.map (fun r => 2 * r)).foldl max (2 * a) = 2 * rs.foldl max a := by
  induction rs with
  | nil => intro a; rfl
  | cons x xs ih =>
      intro a
      simp only [List.map_cons, List.foldl_cons]
      rw [show max (2 * a) (2 * x) = 2 * max a x by omega]
      exact ih (max a x)

/-- Doubling every detected radius doubles the maximum detected radius. -/
theorem maxRadius_double (rs : List ℕ) :
    maxRadius (rs.map (fun r => 2 * r)) = 2 * maxRadius rs := by
  simpa using foldl_max_double rs 0

/-! ### Claims -/

/-- C1 counterexample: an external bore measured at exactly 20.9 mm is not
resolved to BSP nominal size "3/4" — in `TABELA_ROSCAS` the BSP external
entry with reference diameter 20.9 is nominal size "1/2" ("3/4" is 26.4). -/
theorem fator_decisao_scenarioB_not_threequarters :
    fator_decisao 20.9 false ≠
      ⟨some "BSP", some "3/4", some 20.9, 95.0, "externa"⟩ := by
  have h : fator_decisao 20.9 false =
      ⟨some "BSP", some "1/2", some 20.9, 95.0, "externa"⟩ := by
    norm_num [fator_decisao, candidatos, tabelaTipo, TABELA_ROSCAS, List.lookup, abs_le]
  rw [h]
  intro hcontra
  have hbit : some "1/2" = some "3/4" := congrArg DecisionResult.bitola hcontra
  exact absurd (Option.some.inj hbit) (by decide)

/-- C1 (amended): for an external bore with measured diameter 20.9 mm the
Match Resolver returns the match with standard BSP, nominal size "1/2",
reference diameter 20.9 and confidence 95.0. -/
theorem fator_decisao_scenarioB :
    fator_decisao 20.9 false =
      ⟨some "BSP", some "1/2", some 20.9, 95.0, "externa"⟩ := by
  norm_num [fator_decisao, candidatos, tabelaTipo, TABELA_ROSCAS, List.lookup, abs_le]

/-- C2 counterexample: on the empty input list the collision-avoidance
function produces no list at all (the source indexes `medidas_ordenadas[0]`
and raises), refuting the postcondition for "any input list". -/
theorem evitar_cruzamento_empty_no_output :
    evitar_cruzamento [] 0.2 = none := rfl

/-- C2 (amended): for any NON-EMPTY input list, `evitar_cruzamento` returns
a list that is sorted ascending, has the same length as the input, starts
with the smallest input element unchanged, and whose consecutive elements
differ by at least the minimum spacing 0.2. -/
theorem evitar_cruzamento_postcondition (l : List ℚ) (hl : l ≠ []) :
    ∃ out, evitar_cruzamento l 0.2 = some out ∧
      out.Sorted (· ≤ ·) ∧
      out.length = l.length ∧
      (∃ m, out.head? = some m ∧ m ∈ l ∧ ∀ x ∈ l, m ≤ x) ∧
      List.Chain' (fun a b => a + 0.2 ≤ b) out := by
  rcases hs : List.insertionSort (· ≤ ·) l with _ | ⟨m0, resto⟩
  · exact absurd hs (insertionSort_ne_nil l hl)
  · refine ⟨m0 :: ajustarLoop 0.2 m0 resto, ?_, ?_, ?_, ?_, ?_⟩
    · unfold evitar_cruzamento
      rw [hs]
    · haveI : IsTrans ℚ (fun a b => a + (0.2 : ℚ) ≤ b) :=
        ⟨fun a b c h1 h2 => by linarith⟩
      have hpw := List.chain_iff_pairwise.mp (ajustarLoop_chain 0.2 m0 resto)
      exact hpw.imp (fun hab => by linarith)
    · have hlen := List.length_insertionSort (· ≤ ·) l
      rw [hs] at hlen
      simp only [List.length_cons, ajustarLoop_length] at hlen ⊢
      exact hlen
    · refine ⟨m0, rfl, ?_, ?_⟩
      · have hm : m0 ∈ List.insertionSort (· ≤ ·) l := by
          rw [hs]; exact List.mem_cons_self _ _
        exact (List.mem_insertionSort (· ≤ ·)).mp hm
      · intro x hx
        have hxs : x ∈ List.insertionSort (· ≤ ·) l :=
          (List.mem_insertionSort (· ≤ ·)).mpr hx
        have hsorted := List.sorted_insertionSort (· ≤ ·) l
        rw [hs] at hxs hsorted
        rcases List.mem_cons.mp hxs with h1 | h2
        · exact h1 ▸ le_refl _
        · exact List.rel_of_sorted_cons hsorted x h2
    · exact ajustarLoop_chain 0.2 m0 resto

/-- C2 witness: the amended postcondition evaluated on the concrete list
[1, 21/20, 3] (whose first two elements are closer than 0.2). -/
theorem evitar_cruzamento_postcondition_witness :
    ([(1 : ℚ), 21/20, 3] ≠ []) ∧
    (∃ out, evitar_cruzamento [(1 : ℚ), 21/20, 3] 0.2 = some out ∧
      out.Sorted (· ≤ ·) ∧
      out.length = ([(1 : ℚ), 21/20, 3]).length ∧
      (∃ m, out.head? = some m ∧ m ∈ [(1 : ℚ), 21/20, 3] ∧
        ∀ x ∈ [(1 : ℚ), 21/20, 3], m ≤ x) ∧
      List.Chain' (fun a b => a + 0.2 ≤ b) out) :=
  ⟨by simp, evitar_cruzamento_postcondition [(1 : ℚ), 21/20, 3] (by simp)⟩

/-- C3: the Match Resolver agrees everywhere with the resolver whose
collision-avoidance pass is removed, and whenever the qualifying list is
non-empty it returns its first entry (catalog declaration order); the
adjusted candidate set never influences the selection. -/
theorem fator_decisao_picks_first_catalog_candidate (d : ℚ) (i : Bool) :
    fator_decisao d i = fator_decisao_sem_cruzamento d i ∧
    ∀ c : String × String × ℚ,
      (candidatos d (if i then "interna" else "externa")).head? = some c →
      fator_decisao d i =
        ⟨some c.1, some c.2.1, some c.2.2, 95.0,
         if i then "interna" else "externa"⟩ := by
  constructor
  · simp only [fator_decisao, fator_decisao_sem_cruzamento]
  · rcases hcs : candidatos d (if i then "interna" else "externa") with _ | ⟨c0, resto⟩
    · intro c hc
      simp at hc
    · intro c hc
      simp only [List.head?_cons, Option.some.injEq] at hc
      simp only [fator_decisao]
      rw [hcs, ← hc]

/-- C3 witness: at measured diameter 20.9, external: the resolver output
matches the collision-free resolver and equals the head candidate. -/
theorem fator_decisao_picks_first_catalog_candidate_witness :
    fator_decisao 20.9 false = fator_decisao_sem_cruzamento 20.9 false ∧
    fator_decisao 20.9 false =
      ⟨some "BSP", some "1/2", some 20.9, 95.0, "externa"⟩ :=
  ⟨(fator_decisao_picks_first_catalog_candidate 20.9 false).1,
   (fator_decisao_picks_first_catalog_candidate 20.9 false).2 ("BSP", "1/2", 20.9)
     (by norm_num [candidatos, tabelaTipo, TABELA_ROSCAS, List.lookup, abs_le])⟩

/-- C4: qualification is tolerance-symmetric and inclusive at the boundary:
every catalog entry qualifies at measured diameters exactly 0.3 above or
below its reference diameter, and never qualifies at absolute deviation
strictly greater than 0.3. -/
theorem candidatos_tolerance_boundary (norma bitola : String) (dref : ℚ)
    (tipo : String) (h : (norma, bitola, dref) ∈ tabelaTipo tipo) :
    (norma, bitola, dref) ∈ candidatos (dref + 0.3) tipo ∧
    (norma, bitola, dref) ∈ candidatos (dref - 0.3) tipo ∧
    ∀ x : ℚ, 0.3 < |x - dref| → (norma, bitola, dref) ∉ candidatos x tipo := by
  refine ⟨?_, ?_, ?_⟩
  · refine List.mem_filter.mpr ⟨h, ?_⟩
    simp only [decide_eq_true_eq]
    rw [show dref + 0.3 - dref = (0.3 : ℚ) from by ring]
    rw [abs_of_pos (show (0 : ℚ) < 0.3 from by norm_num)]
  · refine List.mem_filter.mpr ⟨h, ?_⟩
    simp only [decide_eq_true_eq]
    rw [show dref - 0.3 - dref = -(0.3 : ℚ) from by ring, abs_neg]
    rw [abs_of_pos (show (0 : ℚ) < 0.3 from by norm_num)]
  · intro x hx hmem
    have hq := (List.mem_filter.mp hmem).2
    simp only [decide_eq_true_eq] at hq
    exact absurd hq (not_le.mpr hx)

/-- C4 witness: the BSP external 1/8 entry (reference 9.7) qualifies at
10.0 and 9.4 and does not qualify at 50. -/
theorem candidatos_tolerance_boundary_witness :
    ("BSP", "1/8", (9.7 : ℚ)) ∈ candidatos (9.7 + 0.3) "externa" ∧
    ("BSP", "1/8", (9.7 : ℚ)) ∈ candidatos (9.7 - 0.3) "externa" ∧
    ("BSP", "1/8", (9.7 : ℚ)) ∉ candidatos 50 "externa" := by
  have h : ("BSP", "1/8", (9.7 : ℚ)) ∈ tabelaTipo "externa" := by
    norm_num [tabelaTipo, TABELA_ROSCAS, List.lookup]
  refine ⟨(candidatos_tolerance_boundary "BSP" "1/8" 9.7 "externa" h).1,
    (candidatos_tolerance_boundary "BSP" "1/8" 9.7 "externa" h).2.1,
    (candidatos_tolerance_boundary "BSP" "1/8" 9.7 "externa" h).2.2 50 ?_⟩
  rw [show (50 : ℚ) - 9.7 = 40.3 from by norm_num]
  rw [abs_of_pos (show (0 : ℚ) < 40.3 from by norm_num)]
  norm_num

/-- C5: with no qualifying entry the resolver returns the all-`None` tuple
with confidence 0.0; with any qualifying entry the returned match carries
the fixed confidence 95.0. -/
theorem fator_decisao_confidence_constant (d : ℚ) (i : Bool) :
    (candidatos d (if i then "interna" else "externa") = [] →
      fator_decisao d i =
        ⟨none, none, none, 0.0, if i then "interna" else "externa"⟩) ∧
    (candidatos d (if i then "interna" else "externa") ≠ [] →
      (fator_decisao d i).norma.isSome = true ∧
      (fator_decisao d i).confianca = 95.0) := by
  rcases hcs : candidatos d (if i then "interna" else "externa") with _ | ⟨c0, resto⟩
  · refine ⟨fun _ => ?_, fun hne => absurd rfl hne⟩
    simp only [fator_decisao]
    rw [hcs]
  · refine ⟨fun heq => absurd heq (by simp), fun _ => ⟨?_, ?_⟩⟩
    · simp only [fator_decisao]
      rw [hcs]
      rfl
    · simp only [fator_decisao]
      rw [hcs]

/-- C5 witness: 50 mm external matches nothing and yields the zero-confidence
no-match tuple; 20.9 mm external yields a match with confidence 95.0. -/
theorem fator_decisao_confidence_constant_witness :
    fator_decisao 50 false = ⟨none, none, none, 0.0, "externa"⟩ ∧
    (fator_decisao 20.9 false).norma.isSome = true ∧
    (fator_decisao 20.9 false).confianca = 95.0 :=
  ⟨(fator_decisao_confidence_constant 50 false).1
     (by norm_num [candidatos, tabelaTipo, TABELA_ROSCAS, List.lookup, abs_le]),
   (fator_decisao_confidence_constant 20.9 false).2
     (by norm_num [candidatos, tabelaTipo, TABELA_ROSCAS, List.lookup, abs_le])⟩

/-- C6: for positive reference pixel width the Scale Calibrator returns
86.0 / W, and doubling the width halves the factor. -/
theorem escala_inverse (W : ℚ) (h : 0 < W) :
    escala W = 86.0 / W ∧ escala (2 * W) = escala W / 2 := by
  refine ⟨rfl, ?_⟩
  unfold escala
  rw [div_div]
  ring_nf

/-- C6 witness: the calibration relation at pixel width 2. -/
theorem escala_inverse_witness :
    (0 : ℚ) < 2 ∧ (escala 2 = 86.0 / 2 ∧ escala (2 * 2) = escala 2 / 2) :=
  ⟨by norm_num, escala_inverse 2 (by norm_num)⟩

/-- C7: with a detected card, the measured diameter equals twice the
maximum detected pixel radius times the scale factor, and doubling every
detected radius doubles the measured diameter. -/
theorem medir_diametro_linear (rs : List ℕ) (contours : List Rect)
    (h : larguraCartao contours ≠ 0) :
    medir_diametro (some rs) contours =
      2 * (maxRadius rs : ℚ) * escala ((larguraCartao contours : ℕ) : ℚ) ∧
    medir_diametro (some (rs.map (fun r => 2 * r))) contours =
      2 * medir_diametro (some rs) contours := by
  constructor
  · simp only [medir_diametro]
    rw [if_neg (by simp [h])]
    push_cast
    ring
  · simp only [medir_diametro]
    rw [if_neg (by simp [h]), if_neg (by simp [h]), maxRadius_double]
    push_cast
    ring

/-- C7 witness: one circle of radius 100 with an 860-pixel card gives
diameter 2·100·(86/860) = 20 mm, and radius 200 gives 40 mm. -/
theorem medir_diametro_linear_witness :
    larguraCartao [⟨0, 0, 860, 100⟩] ≠ 0 ∧
    (medir_diametro (some [100]) [⟨0, 0, 860, 100⟩] =
       2 * (maxRadius [100] : ℚ) *
         escala ((larguraCartao [⟨0, 0, 860, 100⟩] : ℕ) : ℚ) ∧
     medir_diametro (some ([100].map (fun r => 2 * r))) [⟨0, 0, 860, 100⟩] =
       2 * medir_diametro (some [100]) [⟨0, 0, 860, 100⟩]) :=
  ⟨by decide, medir_diametro_linear [100] [⟨0, 0, 860, 100⟩] (by decide)⟩

/-- C8: the pipeline returns the no-measurement value -1 whenever no
circles were detected or no contour box passes the plausibility filter —
in particular whenever circles are absent, whatever the contours. -/
theorem medir_diametro_nofeature (circles : Option (List ℕ)) (contours : List Rect)
    (h : circles = none ∨ ∀ c ∈ contours, ¬ plausivel c) :
    medir_diametro circles contours = -1 := by
  simp only [medir_diametro]
  rcases h with h | h
  · rw [if_pos (Or.inl h)]
  · rw [if_pos (Or.inr (larguraCartao_eq_zero contours h))]

/-- C8 witness: no circles with a plausible card still gives -1, and a
circle with only an implausible (50×50) box gives -1. -/
theorem medir_diametro_nofeature_witness :
    medir_diametro none [⟨0, 0, 860, 100⟩] = -1 ∧
    medir_diametro (some [100]) [⟨0, 0, 50, 50⟩] = -1 :=
  ⟨medir_diametro_nofeature none [⟨0, 0, 860, 100⟩] (Or.inl rfl),
   medir_diametro_nofeature (some [100]) [⟨0, 0, 50, 50⟩] (Or.inr (by decide))⟩

/-- C9: the division by the card width is guarded: the accepted width is
either 0 — in which case the function returns -1 before any division — or
strictly greater than 80 pixels, so a non-positive divisor never reaches
the scale computation. -/
theorem medir_diametro_division_guarded (circles : Option (List ℕ))
    (contours : List Rect) :
    (larguraCartao contours = 0 ∨ 80 < larguraCartao contours) ∧
    (larguraCartao contours = 0 → medir_diametro circles contours = -1) := by
  refine ⟨foldl_largura_inv contours 0 (Or.inl rfl), fun h0 => ?_⟩
  simp only [medir_diametro]
  rw [if_pos (Or.inr h0)]

/-- C9 witness: with no contours the width is 0 and the result is -1. -/
theorem medir_diametro_division_guarded_witness :
    medir_diametro (some [100]) ([] : List Rect) = -1 :=
  (medir_diametro_division_guarded (some [100]) []).2 rfl

/-- C10: the collision-avoidance function is undefined (raises) on the
empty list, but the resolver reaches its call only in the branch where the
qualifying candidate list is non-empty, whose diameters list is then
non-empty, so the call always produces a value. -/
theorem evitar_cruzamento_no_empty_call :
    evitar_cruzamento [] 0.2 = none ∧
    ∀ (d : ℚ) (i : Bool),
      candidatos d (if i then "interna" else "externa") ≠ [] →
      (evitar_cruzamento
        ((candidatos d (if i then "interna" else "externa")).map
          (fun c => c.2.2)) 0.2).isSome = true := by
  refine ⟨rfl, fun d i hne => ?_⟩
  apply evitar_cruzamento_isSome
  simpa using hne

/-- C10 witness: at 20.9 mm external the qualifying list is non-empty and
the collision-avoidance call on its diameters succeeds. -/
theorem evitar_cruzamento_no_empty_call_witness :
    candidatos 20.9 "externa" ≠ [] ∧
    (evitar_cruzamento ((candidatos 20.9 "externa").map (fun c => c.2.2))
      0.2).isSome = true :=
  ⟨by norm_num [candidatos, tabelaTipo, TABELA_ROSCAS, List.lookup, abs_le],
   evitar_cruzamento_no_empty_call.2 20.9 false
     (by norm_num [candidatos, tabelaTipo, TABELA_ROSCAS, List.lookup, abs_le])⟩

end RoscaApp
